import Mathlib

/-!
Shallow embedding of the quality-gate validation engine and the protocol
event builders of this repository (hooks/quality_gates.py and
hooks/protocol_event.py).

Modelling conventions:
- Python floats are modelled as rationals; all numeric literals in the
  source are exact decimals, so the arithmetic agrees wherever a claim
  compares a score with a threshold.
- A Python dict read through `d.get(key, default)` is modelled as a
  structure of `Option` fields read through `Option.getD`; an absent key
  is `none`.
- Truthiness tests on strings and lists are modelled as emptiness tests,
  and truthiness of dict values that feed boolean indicators as `Bool`.
- The `%.2f` interpolations inside feedback strings are modelled by
  `fmt2`; half-way rounding may differ from CPython but no property below
  depends on it.
-/

/-- Splits a character list at whitespace runs, dropping empty pieces; `acc`
holds the (reversed) current word. -/
def splitWsAux : List Char → List Char → List String
  | [], acc => if acc.isEmpty then [] else [String.mk acc.reverse]
  | c :: cs, acc =>
    if c.isWhitespace then
      if acc.isEmpty then splitWsAux cs []
      else String.mk acc.reverse :: splitWsAux cs []
    else splitWsAux cs (c :: acc)

/-- Python str.split with no separator: split on whitespace, dropping empty pieces. -/
def pySplit (s : String) : List String :=
  splitWsAux s.toList []

/-- Python str.lower (character-wise). -/
def pyLower (s : String) : String :=
  String.mk (s.toList.map Char.toLower)

/-- Python substring containment, `sub in s`. -/
def strContains (s sub : String) : Bool :=
  (s.toList.tails).any (fun t => sub.toList.isPrefixOf t)

/-- Two-decimal rendering of a rational, modelling the %.2f interpolations of
the feedback strings. -/
def fmt2 (q : ℚ) : String :=
  let n : ℤ := (q * 100 + 1/2).floor
  let sign := if n < 0 then "-" else ""
  let m := n.natAbs
  sign ++ toString (m / 100) ++ "." ++ (if m % 100 < 10 then "0" else "") ++ toString (m % 100)

/-- Rendering of a rational where Python interpolates the raw numeric value
(integer inputs print as integers). -/
def fmtQ (q : ℚ) : String :=
  if q.den = 1 then toString q.num else toString q.num ++ "/" ++ toString q.den

/-- Truthiness of an optional list value (Python: absent or empty is falsy). -/
def truthyList (o : Option (List String)) : Bool :=
  match o with
  | some l => !l.isEmpty
  | none => false

/-- QUALITY_GATE_THRESHOLD = 0.8 (strict mode). -/
def QUALITY_GATE_THRESHOLD : ℚ := 0.8

/-- quality_gates.QualityGateResult. -/
structure QualityGateResult where
  gate_name : String
  passed : Bool
  score : ℚ
  threshold : ℚ
  feedback : String
  suggestions : List String
  blocking : Bool
deriving Repr, DecidableEq

/-- The `scope` sub-dict read by validate_requirements_clarity. -/
structure Scope where
  files : Option (List String) := none
  modules : Option (List String) := none
deriving Repr

/-- The `quality_checks` sub-dict read by validate_code_quality. -/
structure QualityChecks where
  typescript_types : Option Bool := none
  error_handling : Option Bool := none
  no_debug_code : Option Bool := none
  follows_patterns : Option Bool := none
  comments_explain_why : Option Bool := none
deriving Repr

/-- The `test_types` sub-dict read by validate_test_coverage. -/
structure TestTypes where
  happy_path : Option Bool := none
  edge_cases : Option Bool := none
  error_handling : Option Bool := none
deriving Repr

/-- The `dimensions_reviewed` sub-dict read by validate_review_completeness,
restricted to the five weighted keys the validator scores. -/
structure Dimensions where
  correctness : Option Bool := none
  security : Option Bool := none
  performance : Option Bool := none
  maintainability : Option Bool := none
  test_coverage : Option Bool := none
deriving Repr

/-- The `security_checks` sub-dict read by validate_security_check. -/
structure SecurityChecks where
  input_validation : Option Bool := none
  output_encoding : Option Bool := none
  auth_checks : Option Bool := none
  no_data_exposure : Option Bool := none
  injection_prevention : Option Bool := none
deriving Repr

/-- The `perspectives` sub-dict read by validate_perspective_coverage,
restricted to the six required keys. -/
structure Perspectives where
  developer_experience : Option Bool := none
  architecture : Option Bool := none
  user_impact : Option Bool := none
  resource_cost : Option Bool := none
  security : Option Bool := none
  time_horizon : Option Bool := none
deriving Repr

/-- The `recommendation` sub-dict read by validate_decision_confidence. -/
structure Recommendation where
  confidence : Option ℚ := none
  rationale : Option String := none
deriving Repr

/-- One entry of the `matches` list read by validate_memory_relevance. -/
structure MemMatch where
  relevance : Option ℚ := none
deriving Repr

/-- The `data` map of a GateContext: every key any registered validator
reads, with the type the validator's use of the value demands. -/
structure GateData where
  query : Option String := none
  sources_examined : Option ℤ := none
  files_read : Option ℤ := none
  web_sources : Option ℤ := none
  patterns_found : Option ℤ := none
  findings : Option (List String) := none
  recommendations : Option (List String) := none
  trade_offs : Option (List String) := none
  confidence : Option ℚ := none
  task : Option String := none
  acceptance_criteria : Option (List String) := none
  scope : Option Scope := none
  edge_cases : Option (List String) := none
  quality_checks : Option QualityChecks := none
  tests_added : Option ℤ := none
  coverage_percent : Option ℚ := none
  test_types : Option TestTypes := none
  tests_run : Option ℤ := none
  tests_passed : Option ℤ := none
  tests_failed : Option ℤ := none
  new_failures : Option (List String) := none
  dimensions_reviewed : Option Dimensions := none
  security_checks : Option SecurityChecks := none
  question : Option String := none
  options : Option (List String) := none
  constraints : Option (List String) := none
  success_criteria : Option (List String) := none
  perspectives : Option Perspectives := none
  weights_assigned : Option Bool := none
  recommendation : Option Recommendation := none
  dissenting_view : Option String := none
  «matches» : Option (List MemMatch) := none
  top_relevance : Option ℚ := none
deriving Repr

/-- quality_gates.GateContext. -/
structure GateContext where
  session_id : String
  agent_type : String
  phase : String
  data : GateData
  history : Option (List GateData) := none

/-- The fixed question-marker token set of validate_input_clarity. -/
def question_markers : List String :=
  ["how", "what", "why", "which", "when", "where", "can"]

/-- The fixed technical-term token set of validate_input_clarity. -/
def tech_indicators : List String :=
  ["implement", "architecture", "pattern", "performance",
   "security", "test", "api", "component", "database"]

/-- quality_gates.validate_input_clarity. -/
def validate_input_clarity (ctx : GateContext) : QualityGateResult :=
  let data := ctx.data
  let query := data.query.getD ""
  if query = "" then
    { gate_name := "input_clarity", passed := false, score := 0.0,
      threshold := QUALITY_GATE_THRESHOLD, feedback := "No query provided",
      suggestions := ["Provide a research question or topic"], blocking := true }
  else
    let word_count := (pySplit query).length
    let score : ℚ := 0.0
    let score := if word_count ≥ 5 then score + 0.3 else score
    let score := if word_count ≥ 10 then score + 0.2 else score
    let score := if word_count ≤ 100 then score + 0.1 else score
    let has_question := question_markers.any (fun q => strContains (pyLower query) q)
    let score := if has_question then score + 0.2 else score
    let suggestions : List String :=
      if has_question then [] else ["Consider framing as a question for clearer scope"]
    let has_tech := tech_indicators.any (fun t => strContains (pyLower query) t)
    let score := if has_tech then score + 0.2 else score
    let suggestions :=
      if has_tech then suggestions
      else suggestions ++ ["Include specific technical terms to narrow scope"]
    let score := min 1.0 (max 0.0 score)
    let passed := decide (score ≥ QUALITY_GATE_THRESHOLD)
    { gate_name := "input_clarity", passed := passed, score := score,
      threshold := QUALITY_GATE_THRESHOLD,
      feedback := "Query clarity score: " ++ fmt2 score ++
        (if passed then " - Passed" else " - Needs clarification"),
      suggestions := if passed then [] else suggestions,
      blocking := !passed && decide (score < 0.6) }

/-- quality_gates.validate_source_coverage. -/
def validate_source_coverage (ctx : GateContext) : QualityGateResult :=
  let data := ctx.data
  let sources_examined := data.sources_examined.getD 0
  let files_read := data.files_read.getD 0
  let web_sources := data.web_sources.getD 0
  let patterns_found := data.patterns_found.getD 0
  let score : ℚ := 0.0
  let score := if sources_examined ≥ 3 then score + 0.3 else score
  let score := if sources_examined ≥ 5 then score + 0.2 else score
  let score := if sources_examined ≥ 10 then score + 0.1 else score
  let score := if files_read > 0 then score + 0.15 else score
  let suggestions : List String :=
    if files_read > 0 then [] else ["Search codebase for relevant patterns"]
  let score := if web_sources > 0 then score + 0.1 else score
  let score := if patterns_found ≥ 2 then score + 0.15 else score
  let score := min 1.0 (max 0.0 score)
  let passed := decide (score ≥ 0.7)
  { gate_name := "source_coverage", passed := passed, score := score, threshold := 0.7,
    feedback := "Source coverage: " ++ toString sources_examined ++ " sources, " ++
      toString files_read ++ " files, " ++ toString web_sources ++ " web" ++
      (if passed then " - Adequate" else " - Needs more research"),
    suggestions := if passed then [] else suggestions,
    blocking := false }

/-- quality_gates.validate_synthesis_quality. -/
def validate_synthesis_quality (ctx : GateContext) : QualityGateResult :=
  let data := ctx.data
  let findings := data.findings.getD []
  let recommendations := data.recommendations.getD []
  let trade_offs := data.trade_offs.getD []
  let has_confidence := data.confidence.isSome
  let score : ℚ := 0.0
  let score := if findings.length ≥ 1 then score + 0.2 else score
  let score := if findings.length ≥ 3 then score + 0.15 else score
  let suggestions : List String :=
    if findings.length ≥ 3 then [] else ["Document at least 3 key findings"]
  let score := if recommendations.length ≥ 1 then score + 0.25 else score
  let suggestions :=
    if recommendations.length ≥ 1 then suggestions
    else suggestions ++ ["Provide actionable recommendations"]
  let score := if trade_offs.length ≥ 1 then score + 0.2 else score
  let suggestions :=
    if trade_offs.length ≥ 1 then suggestions
    else suggestions ++ ["Analyze trade-offs between approaches"]
  let score := if has_confidence then score + 0.2 else score
  let suggestions :=
    if has_confidence then suggestions
    else suggestions ++ ["Assign confidence level to recommendations"]
  let score := min 1.0 (max 0.0 score)
  let passed := decide (score ≥ QUALITY_GATE_THRESHOLD)
  { gate_name := "synthesis_quality", passed := passed, score := score,
    threshold := QUALITY_GATE_THRESHOLD,
    feedback := "Synthesis quality: " ++ toString findings.length ++ " findings, " ++
      toString recommendations.length ++ " recommendations" ++
      (if passed then " - Ready for handoff" else " - Needs refinement"),
    suggestions := if passed then [] else suggestions,
    blocking := !passed && decide (score < 0.6) }

/-- quality_gates.validate_requirements_clarity. -/
def validate_requirements_clarity (ctx : GateContext) : QualityGateResult :=
  let data := ctx.data
  let task := data.task.getD ""
  let acceptance_criteria := data.acceptance_criteria.getD []
  let scope := data.scope.getD {}
  let score : ℚ := 0.0
  let score := if task ≠ "" ∧ task.length > 10 then score + 0.3 else score
  let suggestions : List String :=
    if task ≠ "" ∧ task.length > 10 then [] else ["Provide clear task description"]
  let score := if acceptance_criteria.length ≥ 1 then score + 0.2 else score
  let score := if acceptance_criteria.length ≥ 3 then score + 0.15 else score
  let suggestions :=
    if acceptance_criteria.length ≥ 3 then suggestions
    else suggestions ++ ["Define explicit acceptance criteria"]
  let score :=
    if truthyList scope.files || truthyList scope.modules then score + 0.2 else score
  let suggestions :=
    if truthyList scope.files || truthyList scope.modules then suggestions
    else suggestions ++ ["Identify files/modules in scope"]
  let score := if truthyList data.edge_cases then score + 0.15 else score
  let score := min 1.0 (max 0.0 score)
  let passed := decide (score ≥ QUALITY_GATE_THRESHOLD)
  { gate_name := "requirements_clarity", passed := passed, score := score,
    threshold := QUALITY_GATE_THRESHOLD,
    feedback := "Requirements clarity: " ++ toString acceptance_criteria.length ++
      " criteria defined" ++
      (if passed then " - Ready to implement" else " - Needs clarification"),
    suggestions := if passed then [] else suggestions,
    blocking := !passed && decide (score < 0.6) }

/-- quality_gates.validate_code_quality. -/
def validate_code_quality (ctx : GateContext) : QualityGateResult :=
  let data := ctx.data
  let checks := data.quality_checks.getD {}
  let score : ℚ := 0.0
  let score := if checks.typescript_types.getD false then score + 0.25 else score
  let suggestions : List String :=
    if checks.typescript_types.getD false then [] else ["Add comprehensive TypeScript types"]
  let score := if checks.error_handling.getD false then score + 0.25 else score
  let suggestions :=
    if checks.error_handling.getD false then suggestions
    else suggestions ++ ["Add error handling for edge cases"]
  let score := if checks.no_debug_code.getD true then score + 0.15 else score
  let suggestions :=
    if checks.no_debug_code.getD true then suggestions
    else suggestions ++ ["Remove console.log and debug statements"]
  let score := if checks.follows_patterns.getD false then score + 0.2 else score
  let suggestions :=
    if checks.follows_patterns.getD false then suggestions
    else suggestions ++ ["Ensure code follows existing project patterns"]
  let score := if checks.comments_explain_why.getD false then score + 0.15 else score
  let score := min 1.0 (max 0.0 score)
  let passed := decide (score ≥ QUALITY_GATE_THRESHOLD)
  { gate_name := "code_quality", passed := passed, score := score,
    threshold := QUALITY_GATE_THRESHOLD,
    feedback := "Code quality score: " ++ fmt2 score ++
      (if passed then " - Quality standards met" else " - Needs improvement"),
    suggestions := if passed then [] else suggestions,
    blocking := !passed && decide (score < 0.6) }

/-- quality_gates.validate_test_coverage. -/
def validate_test_coverage (ctx : GateContext) : QualityGateResult :=
  let data := ctx.data
  let tests_added := data.tests_added.getD 0
  let coverage := data.coverage_percent.getD 0
  let test_types := data.test_types.getD {}
  let score : ℚ := 0.0
  let score := if tests_added ≥ 1 then score + 0.25 else score
  let score := if tests_added ≥ 3 then score + 0.15 else score
  let suggestions : List String :=
    if tests_added ≥ 3 then [] else ["Add at least 3 tests for new functionality"]
  let score :=
    if coverage ≥ 80 then score + 0.25
    else if coverage ≥ 60 then score + 0.15
    else score
  let suggestions :=
    if coverage ≥ 80 then suggestions
    else if coverage ≥ 60 then suggestions ++ ["Increase coverage to 80%+"]
    else suggestions ++ ["Test coverage (" ++ fmtQ coverage ++ "%) below 60% threshold"]
  let score := if test_types.happy_path.getD false then score + 0.15 else score
  let suggestions :=
    if test_types.happy_path.getD false then suggestions
    else suggestions ++ ["Add happy path tests"]
  let score := if test_types.edge_cases.getD false then score + 0.1 else score
  let score := if test_types.error_handling.getD false then score + 0.1 else score
  let score := min 1.0 (max 0.0 score)
  let passed := decide (score ≥ QUALITY_GATE_THRESHOLD)
  { gate_name := "test_coverage", passed := passed, score := score,
    threshold := QUALITY_GATE_THRESHOLD,
    feedback := "Test coverage: " ++ toString tests_added ++ " tests, " ++ fmtQ coverage ++
      "% coverage" ++ (if passed then " - Well tested" else " - Needs more tests"),
    suggestions := if passed then [] else suggestions,
    blocking := false }

/-- quality_gates.validate_no_regressions. -/
def validate_no_regressions (ctx : GateContext) : QualityGateResult :=
  let data := ctx.data
  let tests_run := data.tests_run.getD 0
  let tests_passed := data.tests_passed.getD 0
  let tests_failed := data.tests_failed.getD 0
  let new_failures := data.new_failures.getD []
  if tests_run = 0 then
    { gate_name := "no_regressions", passed := false, score := 0.0, threshold := 1.0,
      feedback := "No tests run - cannot verify regressions",
      suggestions := ["Run test suite before completion"], blocking := true }
  else
    let pass_rate : ℚ := if tests_run > 0 then (tests_passed : ℚ) / (tests_run : ℚ) else 0
    if tests_failed > 0 then
      { gate_name := "no_regressions", passed := false, score := pass_rate, threshold := 1.0,
        feedback := "Regression detected: " ++ toString tests_failed ++ " test(s) failed",
        suggestions := (new_failures.take 3).map (fun f => "Fix failing test: " ++ f),
        blocking := true }
    else
      { gate_name := "no_regressions", passed := true, score := 1.0, threshold := 1.0,
        feedback := "All " ++ toString tests_run ++ " tests pass - no regressions",
        suggestions := [], blocking := false }

/-- quality_gates.validate_review_completeness. -/
def validate_review_completeness (ctx : GateContext) : QualityGateResult :=
  let data := ctx.data
  let dimensions := data.dimensions_reviewed.getD {}
  let score : ℚ := 0.0
  let score := if dimensions.correctness.getD false then score + 0.25 else score
  let suggestions : List String :=
    if dimensions.correctness.getD false then [] else ["Review correctness dimension"]
  let score := if dimensions.security.getD false then score + 0.25 else score
  let suggestions :=
    if dimensions.security.getD false then suggestions
    else suggestions ++ ["Review security dimension"]
  let score := if dimensions.performance.getD false then score + 0.2 else score
  let suggestions :=
    if dimensions.performance.getD false then suggestions
    else suggestions ++ ["Review performance dimension"]
  let score := if dimensions.maintainability.getD false then score + 0.15 else score
  let suggestions :=
    if dimensions.maintainability.getD false then suggestions
    else suggestions ++ ["Review maintainability dimension"]
  let score := if dimensions.test_coverage.getD false then score + 0.15 else score
  let suggestions :=
    if dimensions.test_coverage.getD false then suggestions
    else suggestions ++ ["Review test_coverage dimension"]
  let score := min 1.0 (max 0.0 score)
  let passed := decide (score ≥ QUALITY_GATE_THRESHOLD)
  let reviewed_count : ℕ :=
    (if dimensions.correctness.getD false then 1 else 0) +
    (if dimensions.security.getD false then 1 else 0) +
    (if dimensions.performance.getD false then 1 else 0) +
    (if dimensions.maintainability.getD false then 1 else 0) +
    (if dimensions.test_coverage.getD false then 1 else 0)
  { gate_name := "review_completeness", passed := passed, score := score,
    threshold := QUALITY_GATE_THRESHOLD,
    feedback := "Review completeness: " ++ toString reviewed_count ++ "/5 dimensions" ++
      (if passed then " - Comprehensive review" else " - Incomplete review"),
    suggestions := if passed then [] else suggestions,
    blocking := false }

/-- quality_gates.validate_security_check. -/
def validate_security_check (ctx : GateContext) : QualityGateResult :=
  let data := ctx.data
  let security_threshold : ℚ := 0.9
  let checks := data.security_checks.getD {}
  let score : ℚ := 0.0
  let score := if checks.input_validation.getD false then score + 0.25 else score
  let suggestions : List String :=
    if checks.input_validation.getD false then [] else ["Verify input validation"]
  let score := if checks.output_encoding.getD false then score + 0.2 else score
  let suggestions :=
    if checks.output_encoding.getD false then suggestions
    else suggestions ++ ["Verify output encoding"]
  let score := if checks.auth_checks.getD false then score + 0.25 else score
  let suggestions :=
    if checks.auth_checks.getD false then suggestions
    else suggestions ++ ["Verify auth checks"]
  let score := if checks.no_data_exposure.getD false then score + 0.15 else score
  let suggestions :=
    if checks.no_data_exposure.getD false then suggestions
    else suggestions ++ ["Verify no data exposure"]
  let score := if checks.injection_prevention.getD false then score + 0.15 else score
  let suggestions :=
    if checks.injection_prevention.getD false then suggestions
    else suggestions ++ ["Verify injection prevention"]
  let score := min 1.0 (max 0.0 score)
  let passed := decide (score ≥ security_threshold)
  { gate_name := "security_check", passed := passed, score := score,
    threshold := security_threshold,
    feedback := "Security score: " ++ fmt2 score ++
      (if passed then " - Security standards met" else " - Security concerns found"),
    suggestions := if passed then [] else suggestions,
    blocking := !passed }

/-- quality_gates.validate_decision_clarity. -/
def validate_decision_clarity (ctx : GateContext) : QualityGateResult :=
  let data := ctx.data
  let question := data.question.getD ""
  let options := data.options.getD []
  let constraints := data.constraints.getD []
  let success_criteria := data.success_criteria.getD []
  let score : ℚ := 0.0
  let score := if question ≠ "" ∧ question.length > 20 then score + 0.3 else score
  let suggestions : List String :=
    if question ≠ "" ∧ question.length > 20 then []
    else ["Provide a clear, specific decision question"]
  let score := if options.length ≥ 2 then score + 0.25 else score
  let suggestions :=
    if options.length ≥ 2 then suggestions
    else suggestions ++ ["Identify at least 2 options to evaluate"]
  let score := if constraints.length ≥ 1 then score + 0.2 else score
  let suggestions :=
    if constraints.length ≥ 1 then suggestions
    else suggestions ++ ["Document constraints affecting the decision"]
  let score := if success_criteria.length ≥ 1 then score + 0.25 else score
  let suggestions :=
    if success_criteria.length ≥ 1 then suggestions
    else suggestions ++ ["Define what success looks like"]
  let score := min 1.0 (max 0.0 score)
  let passed := decide (score ≥ QUALITY_GATE_THRESHOLD)
  { gate_name := "decision_clarity", passed := passed, score := score,
    threshold := QUALITY_GATE_THRESHOLD,
    feedback := "Decision framing: " ++ toString options.length ++ " options, " ++
      toString constraints.length ++ " constraints" ++
      (if passed then " - Well-framed" else " - Needs refinement"),
    suggestions := if passed then [] else suggestions,
    blocking := !passed && decide (score < 0.6) }

/-- quality_gates.validate_perspective_coverage. -/
def validate_perspective_coverage (ctx : GateContext) : QualityGateResult :=
  let data := ctx.data
  let perspectives := data.perspectives.getD {}
  let score : ℚ := 0.0
  let covered : ℕ := 0
  let score :=
    if perspectives.developer_experience.getD false then score + 1/6 * 0.9 else score
  let covered := if perspectives.developer_experience.getD false then covered + 1 else covered
  let suggestions : List String :=
    if perspectives.developer_experience.getD false then []
    else ["Analyze developer experience perspective"]
  let score := if perspectives.architecture.getD false then score + 1/6 * 0.9 else score
  let covered := if perspectives.architecture.getD false then covered + 1 else covered
  let suggestions :=
    if perspectives.architecture.getD false then suggestions
    else suggestions ++ ["Analyze architecture perspective"]
  let score := if perspectives.user_impact.getD false then score + 1/6 * 0.9 else score
  let covered := if perspectives.user_impact.getD false then covered + 1 else covered
  let suggestions :=
    if perspectives.user_impact.getD false then suggestions
    else suggestions ++ ["Analyze user impact perspective"]
  let score := if perspectives.resource_cost.getD false then score + 1/6 * 0.9 else score
  let covered := if perspectives.resource_cost.getD false then covered + 1 else covered
  let suggestions :=
    if perspectives.resource_cost.getD false then suggestions
    else suggestions ++ ["Analyze resource cost perspective"]
  let score := if perspectives.security.getD false then score + 1/6 * 0.9 else score
  let covered := if perspectives.security.getD false then covered + 1 else covered
  let suggestions :=
    if perspectives.security.getD false then suggestions
    else suggestions ++ ["Analyze security perspective"]
  let score := if perspectives.time_horizon.getD false then score + 1/6 * 0.9 else score
  let covered := if perspectives.time_horizon.getD false then covered + 1 else covered
  let suggestions :=
    if perspectives.time_horizon.getD false then suggestions
    else suggestions ++ ["Analyze time horizon perspective"]
  let score := if data.weights_assigned.getD false then score + 0.1 else score
  let score := min 1.0 (max 0.0 score)
  let passed := decide (score ≥ QUALITY_GATE_THRESHOLD)
  { gate_name := "perspective_coverage", passed := passed, score := score,
    threshold := QUALITY_GATE_THRESHOLD,
    feedback := "Perspective coverage: " ++ toString covered ++ "/6 perspectives analyzed" ++
      (if passed then " - Comprehensive analysis" else " - Missing perspectives"),
    suggestions := if passed then [] else suggestions,
    blocking := false }

/-- quality_gates.validate_decision_confidence. -/
def validate_decision_confidence (ctx : GateContext) : QualityGateResult :=
  let data := ctx.data
  let recommendation := data.recommendation.getD {}
  let confidence := recommendation.confidence.getD 0
  let rationale := recommendation.rationale.getD ""
  let dissenting_view := data.dissenting_view.getD ""
  let score : ℚ := confidence
  let score :=
    if rationale ≠ "" ∧ rationale.length > 50 then min 1.0 (score + 0.1) else score
  let suggestions : List String :=
    if rationale ≠ "" ∧ rationale.length > 50 then []
    else ["Provide detailed rationale for recommendation"]
  let score := if dissenting_view ≠ "" then min 1.0 (score + 0.05) else score
  let suggestions :=
    if dissenting_view ≠ "" then suggestions
    else suggestions ++ ["Acknowledge strongest counter-argument"]
  let passed := decide (score ≥ QUALITY_GATE_THRESHOLD)
  let confidence_level :=
    if score ≥ (0.8 : ℚ) then "HIGH" else if score ≥ (0.6 : ℚ) then "MEDIUM" else "LOW"
  { gate_name := "decision_confidence", passed := passed, score := score,
    threshold := QUALITY_GATE_THRESHOLD,
    feedback := "Decision confidence: " ++ confidence_level ++ " (" ++ fmt2 score ++ ")" ++
      (if passed then " - Confident recommendation" else " - Consider prototyping"),
    suggestions := if passed then [] else suggestions,
    blocking := false }

/-- quality_gates.validate_memory_relevance. -/
def validate_memory_relevance (ctx : GateContext) : QualityGateResult :=
  let data := ctx.data
  let mem_matches := data.«matches».getD []
  let _query := data.query.getD ""
  let top_relevance := data.top_relevance.getD 0
  let relevance_threshold : ℚ := 0.7
  if mem_matches.isEmpty then
    { gate_name := "memory_relevance", passed := false, score := 0.0,
      threshold := relevance_threshold, feedback := "No matching memories found",
      suggestions := ["Broaden search terms", "Check alternative categories"],
      blocking := false }
  else
    let score : ℚ := top_relevance
    let high_relevance_count :=
      mem_matches.countP (fun m => decide (m.relevance.getD 0 ≥ (0.7 : ℚ)))
    let score := if high_relevance_count ≥ 2 then min 1.0 (score + 0.1) else score
    let passed := decide (score ≥ relevance_threshold)
    { gate_name := "memory_relevance", passed := passed, score := score,
      threshold := relevance_threshold,
      feedback := "Memory relevance: " ++ toString mem_matches.length ++
        " matches, top relevance " ++ fmt2 top_relevance ++
        (if passed then " - Good matches" else " - Low relevance"),
      suggestions := if passed then [] else ["Consider alternative search strategies"],
      blocking := false }

/-- quality_gates.GATE_VALIDATORS: the static registry, in source order. -/
def GATE_VALIDATORS : List (String × (GateContext → QualityGateResult)) :=
  [("input_clarity", validate_input_clarity),
   ("source_coverage", validate_source_coverage),
   ("synthesis_quality", validate_synthesis_quality),
   ("requirements_clarity", validate_requirements_clarity),
   ("code_quality", validate_code_quality),
   ("test_coverage", validate_test_coverage),
   ("no_regressions", validate_no_regressions),
   ("review_completeness", validate_review_completeness),
   ("security_check", validate_security_check),
   ("decision_clarity", validate_decision_clarity),
   ("perspective_coverage", validate_perspective_coverage),
   ("decision_confidence", validate_decision_confidence),
   ("memory_relevance", validate_memory_relevance)]

/-- The raw context dict handed to quality_gates.validate_gate. -/
structure RawContext where
  session_id : Option String := none
  agent_type : Option String := none
  phase : Option String := none
  data : Option GateData := none
  history : Option (List GateData) := none

/-- quality_gates.validate_gate: registry dispatch with auto-pass fallback. -/
def validate_gate (gate_name : String) (context : RawContext) : QualityGateResult :=
  match GATE_VALIDATORS.lookup gate_name with
  | none =>
    { gate_name := gate_name, passed := true, score := 1.0,
      threshold := QUALITY_GATE_THRESHOLD,
      feedback := "No validator defined for gate \x27" ++ gate_name ++ "\x27 - auto-pass",
      suggestions := [], blocking := false }
  | some validator =>
    validator
      { session_id := context.session_id.getD "unknown",
        agent_type := context.agent_type.getD "unknown",
        phase := context.phase.getD "unknown",
        data := context.data.getD {},
        history := context.history }

/-- quality_gates.get_confidence_action. -/
def get_confidence_action (confidence : ℚ) : String :=
  if confidence ≥ 0.8 then "proceed"
  else if confidence ≥ 0.6 then "clarify"
  else "block"

/-- The payload dict handed to protocol_event.build_gate_event. -/
structure GatePayload where
  gate_name : Option String := none
  passed : Option Bool := none
  score : Option ℚ := none
  threshold : Option ℚ := none
  feedback : Option String := none
  context : Option (List (String × String)) := none

/-- The gate-shaped protocol event produced by protocol_event.build_gate_event. -/
structure GateEvent where
  event_type : String
  agent_type : String
  protocol_version : String
  gate_name : String
  passed : Bool
  score : ℚ
  threshold : ℚ
  feedback : String
  context : List (String × String)

/-- protocol_event.build_gate_event. -/
def build_gate_event (agent : String) (payload : GatePayload) : GateEvent :=
  let score := payload.score.getD 0.0
  let passed := payload.passed.getD (decide (score ≥ QUALITY_GATE_THRESHOLD))
  { event_type := "gate",
    agent_type := agent,
    protocol_version := "2.0",
    gate_name := payload.gate_name.getD "unknown",
    passed := passed,
    score := score,
    threshold := payload.threshold.getD QUALITY_GATE_THRESHOLD,
    feedback := payload.feedback.getD "",
    context := payload.context.getD [] }

/-! ### Concrete inputs used by the claim theorems -/

/-- Raw context whose data carries recommendation.confidence = 5. -/
def ctx_conf5 : RawContext :=
  { data := some { recommendation := some { confidence := some 5 } } }

/-- The GateContext that validate_gate builds from ctx_conf5. -/
def gctx_conf5 : GateContext :=
  { session_id := "unknown", agent_type := "unknown", phase := "unknown",
    data := { recommendation := some { confidence := some 5 } }, history := none }

/-- A gate payload with a score of 0.6, an explicit threshold of 0.5, and no
passed field. -/
def gate_payload_cx : GatePayload := { score := some 0.6, threshold := some 0.5 }

/-- A gate payload with a score of 0.9 and no passed field. -/
def gate_payload_w : GatePayload := { score := some 0.9 }

/-- A context reporting a negative tests_run together with a failure. -/
def ctx_negative_tests : GateContext :=
  { session_id := "s", agent_type := "implementer", phase := "p",
    data := { tests_run := some (-1), tests_passed := some 1, tests_failed := some 1 } }

/-- A context reporting 10 tests run, 9 passed, 1 failed, 4 failure names. -/
def ctx_regression_w : GateContext :=
  { session_id := "s", agent_type := "implementer", phase := "p",
    data := { tests_run := some 10, tests_passed := some 9, tests_failed := some 1,
              new_failures := some ["test_a", "test_b", "test_c", "test_d"] } }

/-- A context whose security checks meet four of the five indicators. -/
def ctx_security_w : GateContext :=
  { session_id := "s", agent_type := "reviewer", phase := "p",
    data := { security_checks :=
                some ({ input_validation := some true, output_encoding := some true,
                        auth_checks := some true, no_data_exposure := some true,
                        injection_prevention := some false } : SecurityChecks) } }

/-- A context whose query has 12 words, a question marker, a technical term. -/
def ctx_clear_query : GateContext :=
  { session_id := "s", agent_type := "researcher", phase := "p",
    data := { query :=
                some "how can we test the performance of the new database component today" } }

/-- A context with no query at all (Python: empty query). -/
def ctx_empty_query : GateContext :=
  { session_id := "s", agent_type := "researcher", phase := "p", data := {} }

/-! ### Association-list facts about the registry lookup -/

theorem mem_of_lookup_eq_some {β : Type} {a : String} {b : β} :
    ∀ {l : List (String × β)}, l.lookup a = some b → (a, b) ∈ l := by
  intro l
  induction l with
  | nil => intro h; simp [List.lookup] at h
  | cons p t ih =>
    obtain ⟨k, v⟩ := p
    intro h
    simp only [List.lookup] at h
    cases hk : (a == k) with
    | true =>
      rw [hk] at h
      obtain rfl := eq_of_beq hk
      obtain rfl : v = b := by simpa using h
      exact List.mem_cons_self _ _
    | false =>
      rw [hk] at h
      exact List.mem_cons_of_mem _ (ih h)

theorem lookup_eq_none_of_not_mem {β : Type} {a : String} :
    ∀ {l : List (String × β)}, a ∉ l.map Prod.fst → l.lookup a = none := by
  intro l
  induction l with
  | nil => intro _; rfl
  | cons p t ih =>
    obtain ⟨k, v⟩ := p
    intro h
    simp only [List.map_cons, List.mem_cons] at h
    push_neg at h
    simp only [List.lookup]
    have hk : (a == k) = false := beq_eq_false_iff_ne.mpr h.1
    rw [hk]
    exact ih h.2

/-! ### Per-validator facts: blocking forces failure -/

theorem input_clarity_blocking (ctx : GateContext) :
    (validate_input_clarity ctx).blocking = true →
    (validate_input_clarity ctx).passed = false := by
  simp only [validate_input_clarity]
  split
  · intro _; rfl
  · intro h
    simp only [Bool.and_eq_true, Bool.not_eq_true'] at h
    exact h.1

theorem source_coverage_blocking (ctx : GateContext) :
    (validate_source_coverage ctx).blocking = true →
    (validate_source_coverage ctx).passed = false := by
  simp only [validate_source_coverage]
  intro h
  exact absurd h Bool.false_ne_true

theorem synthesis_quality_blocking (ctx : GateContext) :
    (validate_synthesis_quality ctx).blocking = true →
    (validate_synthesis_quality ctx).passed = false := by
  simp only [validate_synthesis_quality]
  intro h
  simp only [Bool.and_eq_true, Bool.not_eq_true'] at h
  exact h.1

theorem requirements_clarity_blocking (ctx : GateContext) :
    (validate_requirements_clarity ctx).blocking = true →
    (validate_requirements_clarity ctx).passed = false := by
  simp only [validate_requirements_clarity]
  intro h
  simp only [Bool.and_eq_true, Bool.not_eq_true'] at h
  exact h.1

theorem code_quality_blocking (ctx : GateContext) :
    (validate_code_quality ctx).blocking = true →
    (validate_code_quality ctx).passed = false := by
  simp only [validate_code_quality]
  intro h
  simp only [Bool.and_eq_true, Bool.not_eq_true'] at h
  exact h.1

theorem test_coverage_blocking (ctx : GateContext) :
    (validate_test_coverage ctx).blocking = true →
    (validate_test_coverage ctx).passed = false := by
  simp only [validate_test_coverage]
  intro h
  exact absurd h Bool.false_ne_true

theorem no_regressions_blocking (ctx : GateContext) :
    (validate_no_regressions ctx).blocking = true →
    (validate_no_regressions ctx).passed = false := by
  simp only [validate_no_regressions]
  split
  · intro _; rfl
  · split
    · intro _; rfl
    · intro h; exact absurd h Bool.false_ne_true

theorem review_completeness_blocking (ctx : GateContext) :
    (validate_review_completeness ctx).blocking = true →
    (validate_review_completeness ctx).passed = false := by
  simp only [validate_review_completeness]
  intro h
  exact absurd h Bool.false_ne_true

theorem security_check_blocking (ctx : GateContext) :
    (validate_security_check ctx).blocking = true →
    (validate_security_check ctx).passed = false := by
  simp only [validate_security_check]
  intro h
  simp only [Bool.not_eq_true'] at h
  exact h

theorem decision_clarity_blocking (ctx : GateContext) :
    (validate_decision_clarity ctx).blocking = true →
    (validate_decision_clarity ctx).passed = false := by
  simp only [validate_decision_clarity]
  intro h
  simp only [Bool.and_eq_true, Bool.not_eq_true'] at h
  exact h.1

theorem perspective_coverage_blocking (ctx : GateContext) :
    (validate_perspective_coverage ctx).blocking = true →
    (validate_perspective_coverage ctx).passed = false := by
  simp only [validate_perspective_coverage]
  intro h
  exact absurd h Bool.false_ne_true

theorem decision_confidence_blocking (ctx : GateContext) :
    (validate_decision_confidence ctx).blocking = true →
    (validate_decision_confidence ctx).passed = false := by
  simp only [validate_decision_confidence]
  intro h
  exact absurd h Bool.false_ne_true

theorem memory_relevance_blocking (ctx : GateContext) :
    (validate_memory_relevance ctx).blocking = true →
    (validate_memory_relevance ctx).passed = false := by
  simp only [validate_memory_relevance]
  split
  · intro h; exact absurd h Bool.false_ne_true
  · intro h; exact absurd h Bool.false_ne_true

theorem registry_blocking :
    ∀ p ∈ GATE_VALIDATORS, ∀ ctx : GateContext,
      (p.2 ctx).blocking = true → (p.2 ctx).passed = false := by
  intro p hp
  simp only [GATE_VALIDATORS, List.mem_cons, List.not_mem_nil, or_false] at hp
  rcases hp with rfl | rfl | rfl | rfl | rfl | rfl | rfl | rfl | rfl | rfl | rfl | rfl | rfl
  · exact input_clarity_blocking
  · exact source_coverage_blocking
  · exact synthesis_quality_blocking
  · exact requirements_clarity_blocking
  · exact code_quality_blocking
  · exact test_coverage_blocking
  · exact no_regressions_blocking
  · exact review_completeness_blocking
  · exact security_check_blocking
  · exact decision_clarity_blocking
  · exact perspective_coverage_blocking
  · exact decision_confidence_blocking
  · exact memory_relevance_blocking

/-! ### Per-validator facts: a passing verdict carries no suggestions -/

theorem input_clarity_suggestions (ctx : GateContext) :
    (validate_input_clarity ctx).passed = true →
    (validate_input_clarity ctx).suggestions = [] := by
  simp only [validate_input_clarity]
  split
  · intro h; exact absurd h (by simp)
  · intro h; exact if_pos h

theorem source_coverage_suggestions (ctx : GateContext) :
    (validate_source_coverage ctx).passed = true →
    (validate_source_coverage ctx).suggestions = [] := by
  simp only [validate_source_coverage]
  intro h
  exact if_pos h

theorem synthesis_quality_suggestions (ctx : GateContext) :
    (validate_synthesis_quality ctx).passed = true →
    (validate_synthesis_quality ctx).suggestions = [] := by
  simp only [validate_synthesis_quality]
  intro h
  exact if_pos h

theorem requirements_clarity_suggestions (ctx : GateContext) :
    (validate_requirements_clarity ctx).passed = true →
    (validate_requirements_clarity ctx).suggestions = [] := by
  simp only [validate_requirements_clarity]
  intro h
  exact if_pos h

theorem code_quality_suggestions (ctx : GateContext) :
    (validate_code_quality ctx).passed = true →
    (validate_code_quality ctx).suggestions = [] := by
  simp only [validate_code_quality]
  intro h
  exact if_pos h

theorem test_coverage_suggestions (ctx : GateContext) :
    (validate_test_coverage ctx).passed = true →
    (validate_test_coverage ctx).suggestions = [] := by
  simp only [validate_test_coverage]
  intro h
  exact if_pos h

theorem no_regressions_suggestions (ctx : GateContext) :
    (validate_no_regressions ctx).passed = true →
    (validate_no_regressions ctx).suggestions = [] := by
  simp only [validate_no_regressions]
  split
  · intro h; exact absurd h (by simp)
  · split
    · intro h; exact absurd h (by simp)
    · intro _; rfl

theorem review_completeness_suggestions (ctx : GateContext) :
    (validate_review_completeness ctx).passed = true →
    (validate_review_completeness ctx).suggestions = [] := by
  simp only [validate_review_completeness]
  intro h
  exact if_pos h

theorem security_check_suggestions (ctx : GateContext) :
    (validate_security_check ctx).passed = true →
    (validate_security_check ctx).suggestions = [] := by
  simp only [validate_security_check]
  intro h
  exact if_pos h

theorem decision_clarity_suggestions (ctx : GateContext) :
    (validate_decision_clarity ctx).passed = true →
    (validate_decision_clarity ctx).suggestions = [] := by
  simp only [validate_decision_clarity]
  intro h
  exact if_pos h

theorem perspective_coverage_suggestions (ctx : GateContext) :
    (validate_perspective_coverage ctx).passed = true →
    (validate_perspective_coverage ctx).suggestions = [] := by
  simp only [validate_perspective_coverage]
  intro h
  exact if_pos h

theorem decision_confidence_suggestions (ctx : GateContext) :
    (validate_decision_confidence ctx).passed = true →
    (validate_decision_confidence ctx).suggestions = [] := by
  simp only [validate_decision_confidence]
  intro h
  exact if_pos h

theorem memory_relevance_suggestions (ctx : GateContext) :
    (validate_memory_relevance ctx).passed = true →
    (validate_memory_relevance ctx).suggestions = [] := by
  simp only [validate_memory_relevance]
  split
  · intro h; exact absurd h (by simp)
  · intro h; exact if_pos h

theorem registry_suggestions :
    ∀ p ∈ GATE_VALIDATORS, ∀ ctx : GateContext,
      (p.2 ctx).passed = true → (p.2 ctx).suggestions = [] := by
  intro p hp
  simp only [GATE_VALIDATORS, List.mem_cons, List.not_mem_nil, or_false] at hp
  rcases hp with rfl | rfl | rfl | rfl | rfl | rfl | rfl | rfl | rfl | rfl | rfl | rfl | rfl
  · exact input_clarity_suggestions
  · exact source_coverage_suggestions
  · exact synthesis_quality_suggestions
  · exact requirements_clarity_suggestions
  · exact code_quality_suggestions
  · exact test_coverage_suggestions
  · exact no_regressions_suggestions
  · exact review_completeness_suggestions
  · exact security_check_suggestions
  · exact decision_clarity_suggestions
  · exact perspective_coverage_suggestions
  · exact decision_confidence_suggestions
  · exact memory_relevance_suggestions

/-! ### Per-validator facts: each validator hardcodes its registry key -/

theorem input_clarity_key (ctx : GateContext) :
    (validate_input_clarity ctx).gate_name = "input_clarity" := by
  simp only [validate_input_clarity]
  split <;> rfl

theorem source_coverage_key (ctx : GateContext) :
    (validate_source_coverage ctx).gate_name = "source_coverage" := rfl

theorem synthesis_quality_key (ctx : GateContext) :
    (validate_synthesis_quality ctx).gate_name = "synthesis_quality" := rfl

theorem requirements_clarity_key (ctx : GateContext) :
    (validate_requirements_clarity ctx).gate_name = "requirements_clarity" := rfl

theorem code_quality_key (ctx : GateContext) :
    (validate_code_quality ctx).gate_name = "code_quality" := rfl

theorem test_coverage_key (ctx : GateContext) :
    (validate_test_coverage ctx).gate_name = "test_coverage" := rfl

theorem no_regressions_key (ctx : GateContext) :
    (validate_no_regressions ctx).gate_name = "no_regressions" := by
  simp only [validate_no_regressions]
  split
  · rfl
  · split <;> rfl

theorem review_completeness_key (ctx : GateContext) :
    (validate_review_completeness ctx).gate_name = "review_completeness" := rfl

theorem security_check_key (ctx : GateContext) :
    (validate_security_check ctx).gate_name = "security_check" := rfl

theorem decision_clarity_key (ctx : GateContext) :
    (validate_decision_clarity ctx).gate_name = "decision_clarity" := rfl

theorem perspective_coverage_key (ctx : GateContext) :
    (validate_perspective_coverage ctx).gate_name = "perspective_coverage" := rfl

theorem decision_confidence_key (ctx : GateContext) :
    (validate_decision_confidence ctx).gate_name = "decision_confidence" := rfl

theorem memory_relevance_key (ctx : GateContext) :
    (validate_memory_relevance ctx).gate_name = "memory_relevance" := by
  simp only [validate_memory_relevance]
  split <;> rfl

theorem registry_keys :
    ∀ p ∈ GATE_VALIDATORS, ∀ ctx : GateContext, (p.2 ctx).gate_name = p.1 := by
  intro p hp
  simp only [GATE_VALIDATORS, List.mem_cons, List.not_mem_nil, or_false] at hp
  rcases hp with rfl | rfl | rfl | rfl | rfl | rfl | rfl | rfl | rfl | rfl | rfl | rfl | rfl
  · exact input_clarity_key
  · exact source_coverage_key
  · exact synthesis_quality_key
  · exact requirements_clarity_key
  · exact code_quality_key
  · exact test_coverage_key
  · exact no_regressions_key
  · exact review_completeness_key
  · exact security_check_key
  · exact decision_clarity_key
  · exact perspective_coverage_key
  · exact decision_confidence_key
  · exact memory_relevance_key

/-- Claim C1 (code bug in the source): the spec requires every registered
validator to clamp its score into [0,1] for arbitrary numeric indicator
values, and the QualityGateResult dataclass documents score as 0.0-1.0, but
validate_decision_confidence passes the raw recommendation confidence
through unclamped: confidence 5 yields a verdict score of 5. -/
theorem decision_confidence_score_unclamped :
    ("decision_confidence", validate_decision_confidence) ∈ GATE_VALIDATORS ∧
    (validate_gate "decision_confidence" ctx_conf5).score = 5 ∧
    1 < (validate_gate "decision_confidence" ctx_conf5).score := by
  have h : validate_gate "decision_confidence" ctx_conf5 =
      validate_decision_confidence gctx_conf5 := rfl
  refine ⟨by simp [GATE_VALIDATORS], ?_, ?_⟩
  · rw [h]
    simp only [validate_decision_confidence, gctx_conf5, Option.getD]
    norm_num
  · rw [h]
    simp only [validate_decision_confidence, gctx_conf5, Option.getD]
    norm_num

/-- Claim C2: for every gate name not present in the validator registry and
every context, validate_gate returns passed = true, score = 1.0,
threshold = 0.8, blocking = false, no suggestions, and feedback saying that
no validator is defined for the gate. -/
theorem validate_gate_unregistered_auto_pass (gate_name : String) (context : RawContext)
    (h : gate_name ∉ GATE_VALIDATORS.map Prod.fst) :
    validate_gate gate_name context =
      { gate_name := gate_name, passed := true, score := 1.0, threshold := 0.8,
        feedback := "No validator defined for gate \x27" ++ gate_name ++ "\x27 - auto-pass",
        suggestions := [], blocking := false } := by
  unfold validate_gate
  rw [lookup_eq_none_of_not_mem h]
  rfl

/-- Witness for claim C2 at the unregistered name "mystery_gate". -/
theorem validate_gate_unregistered_auto_pass_witness :
    validate_gate "mystery_gate" {} =
      { gate_name := "mystery_gate", passed := true, score := 1.0, threshold := 0.8,
        feedback := "No validator defined for gate \x27mystery_gate\x27 - auto-pass",
        suggestions := [], blocking := false } :=
  validate_gate_unregistered_auto_pass "mystery_gate" {} (by decide)

/-- Claim C3 counterexample: the claim says a gate payload without a passed
field gets passed = (score >= threshold) with the payload threshold; but for
score 0.6 and payload threshold 0.5 the builder returns passed = false even
though score >= threshold, because the default compares against the global
0.8 threshold instead. -/
theorem build_gate_event_ignores_payload_threshold :
    gate_payload_cx.passed = none ∧
    (build_gate_event "researcher" gate_payload_cx).threshold = 0.5 ∧
    (build_gate_event "researcher" gate_payload_cx).score ≥
      (build_gate_event "researcher" gate_payload_cx).threshold ∧
    (build_gate_event "researcher" gate_payload_cx).passed = false := by
  refine ⟨rfl, rfl, ?_, ?_⟩
  · simp only [build_gate_event, gate_payload_cx, Option.getD, QUALITY_GATE_THRESHOLD]
    norm_num
  · simp only [build_gate_event, gate_payload_cx, Option.getD, QUALITY_GATE_THRESHOLD]
    norm_num

/-- Claim C3 (amended): when the payload omits the passed field, the built
gate event has passed = (score >= 0.8), using the module default threshold
regardless of the payload threshold field; the event threshold field is the
payload threshold when present and 0.8 otherwise. -/
theorem build_gate_event_default_passed (agent : String) (p : GatePayload)
    (h : p.passed = none) :
    ((build_gate_event agent p).passed = true ↔
      p.score.getD 0.0 ≥ QUALITY_GATE_THRESHOLD) ∧
    (build_gate_event agent p).threshold = p.threshold.getD 0.8 ∧
    (build_gate_event agent p).score = p.score.getD 0.0 := by
  simp only [build_gate_event, h, Option.getD_none, QUALITY_GATE_THRESHOLD,
    decide_eq_true_eq]
  exact ⟨trivial, trivial, trivial⟩

/-- Witness for the amended claim C3 at a payload with score 0.9 only. -/
theorem build_gate_event_default_passed_witness :
    ((build_gate_event "researcher" gate_payload_w).passed = true ↔
      gate_payload_w.score.getD 0.0 ≥ QUALITY_GATE_THRESHOLD) ∧
    (build_gate_event "researcher" gate_payload_w).threshold =
      gate_payload_w.threshold.getD 0.8 ∧
    (build_gate_event "researcher" gate_payload_w).score = gate_payload_w.score.getD 0.0 :=
  build_gate_event_default_passed "researcher" gate_payload_w rfl

/-- Claim C4 counterexample: the claim asserts that whenever tests_run is
nonzero and tests_failed is positive the score equals
tests_passed / tests_run; with tests_run = -1, tests_passed = 1,
tests_failed = 1 the code returns score 0 while the claimed ratio is -1. -/
theorem no_regressions_score_differs_from_ratio :
    ctx_negative_tests.data.tests_run.getD 0 = -1 ∧
    ctx_negative_tests.data.tests_failed.getD 0 > 0 ∧
    (validate_no_regressions ctx_negative_tests).score = 0 ∧
    (ctx_negative_tests.data.tests_passed.getD 0 : ℚ) /
      (ctx_negative_tests.data.tests_run.getD 0 : ℚ) = -1 := by
  refine ⟨by decide, by decide, ?_, ?_⟩
  · simp only [validate_no_regressions, ctx_negative_tests, Option.getD]
    norm_num
  · simp only [ctx_negative_tests, Option.getD]
    norm_num

/-- Claim C4 (amended): the no-regressions validator returns, per branch:
tests_run = 0 gives passed = false, score = 0, threshold = 1.0,
blocking = true; otherwise tests_failed > 0 gives passed = false,
score = tests_passed / tests_run when tests_run > 0 (and 0 when tests_run is
negative), blocking = true, with suggestions built from the first 3 failing
test identifiers; otherwise passed = true, score = 1.0, blocking = false. -/
theorem validate_no_regressions_spec (ctx : GateContext) :
    (ctx.data.tests_run.getD 0 = 0 →
      (validate_no_regressions ctx).passed = false ∧
      (validate_no_regressions ctx).score = 0.0 ∧
      (validate_no_regressions ctx).threshold = 1.0 ∧
      (validate_no_regressions ctx).blocking = true) ∧
    (ctx.data.tests_run.getD 0 ≠ 0 → ctx.data.tests_failed.getD 0 > 0 →
      (validate_no_regressions ctx).passed = false ∧
      (validate_no_regressions ctx).score =
        (if ctx.data.tests_run.getD 0 > 0 then
          (ctx.data.tests_passed.getD 0 : ℚ) / (ctx.data.tests_run.getD 0 : ℚ)
         else 0) ∧
      (validate_no_regressions ctx).threshold = 1.0 ∧
      (validate_no_regressions ctx).blocking = true ∧
      (validate_no_regressions ctx).suggestions =
        ((ctx.data.new_failures.getD []).take 3).map (fun f => "Fix failing test: " ++ f)) ∧
    (ctx.data.tests_run.getD 0 ≠ 0 → ¬(ctx.data.tests_failed.getD 0 > 0) →
      (validate_no_regressions ctx).passed = true ∧
      (validate_no_regressions ctx).score = 1.0 ∧
      (validate_no_regressions ctx).blocking = false) := by
  refine ⟨?_, ?_, ?_⟩
  · intro h
    simp only [validate_no_regressions, if_pos h]
    exact ⟨trivial, trivial, trivial, trivial⟩
  · intro h1 h2
    simp only [validate_no_regressions, if_neg h1, if_pos h2]
    exact ⟨trivial, trivial, trivial, trivial, trivial⟩
  · intro h1 h2
    simp only [validate_no_regressions, if_neg h1, if_neg h2]
    exact ⟨trivial, trivial, trivial⟩

/-- Witness for the amended claim C4 in its failing branch: 10 tests run,
9 passed, 1 failed, suggestions from the first 3 of 4 failure names. -/
theorem validate_no_regressions_spec_witness :
    (validate_no_regressions ctx_regression_w).passed = false ∧
    (validate_no_regressions ctx_regression_w).score =
      (if ctx_regression_w.data.tests_run.getD 0 > 0 then
        (ctx_regression_w.data.tests_passed.getD 0 : ℚ) /
          (ctx_regression_w.data.tests_run.getD 0 : ℚ)
       else 0) ∧
    (validate_no_regressions ctx_regression_w).threshold = 1.0 ∧
    (validate_no_regressions ctx_regression_w).blocking = true ∧
    (validate_no_regressions ctx_regression_w).suggestions =
      ((ctx_regression_w.data.new_failures.getD []).take 3).map
        (fun f => "Fix failing test: " ++ f) :=
  (validate_no_regressions_spec ctx_regression_w).2.1 (by decide) (by decide)

/-- Claim C5: the security-check validator scores the weighted sum of the 5
fixed indicators (0.25, 0.20, 0.25, 0.15, 0.15), uses threshold 0.9, and
whenever at least one indicator is unmet the verdict is blocking. -/
theorem validate_security_check_spec (ctx : GateContext) :
    (validate_security_check ctx).score =
      (if (ctx.data.security_checks.getD {}).input_validation.getD false then (0.25 : ℚ) else 0) +
      (if (ctx.data.security_checks.getD {}).output_encoding.getD false then 0.2 else 0) +
      (if (ctx.data.security_checks.getD {}).auth_checks.getD false then 0.25 else 0) +
      (if (ctx.data.security_checks.getD {}).no_data_exposure.getD false then 0.15 else 0) +
      (if (ctx.data.security_checks.getD {}).injection_prevention.getD false then 0.15 else 0) ∧
    (validate_security_check ctx).threshold = 0.9 ∧
    (¬((ctx.data.security_checks.getD {}).input_validation.getD false = true ∧
        (ctx.data.security_checks.getD {}).output_encoding.getD false = true ∧
        (ctx.data.security_checks.getD {}).auth_checks.getD false = true ∧
        (ctx.data.security_checks.getD {}).no_data_exposure.getD false = true ∧
        (ctx.data.security_checks.getD {}).injection_prevention.getD false = true) →
      (validate_security_check ctx).blocking = true) := by
  refine ⟨?_, ?_, ?_⟩
  · simp only [validate_security_check]
    generalize (ctx.data.security_checks.getD {}).input_validation.getD false = a
    generalize (ctx.data.security_checks.getD {}).output_encoding.getD false = b
    generalize (ctx.data.security_checks.getD {}).auth_checks.getD false = c
    generalize (ctx.data.security_checks.getD {}).no_data_exposure.getD false = d
    generalize (ctx.data.security_checks.getD {}).injection_prevention.getD false = e
    cases a <;> cases b <;> cases c <;> cases d <;> cases e <;>
      norm_num [min_def, max_def]
  · simp only [validate_security_check]
  · simp only [validate_security_check]
    generalize (ctx.data.security_checks.getD {}).input_validation.getD false = a
    generalize (ctx.data.security_checks.getD {}).output_encoding.getD false = b
    generalize (ctx.data.security_checks.getD {}).auth_checks.getD false = c
    generalize (ctx.data.security_checks.getD {}).no_data_exposure.getD false = d
    generalize (ctx.data.security_checks.getD {}).injection_prevention.getD false = e
    cases a <;> cases b <;> cases c <;> cases d <;> cases e <;> intro hh <;>
      first
        | (clear hh; norm_num [min_def, max_def, Bool.not_eq_true', decide_eq_false_iff_not]; done)
        | exact absurd ⟨rfl, rfl, rfl, rfl, rfl⟩ hh

/-- Witness for claim C5: with four of five indicators met the verdict
blocks. -/
theorem validate_security_check_spec_witness :
    (validate_security_check ctx_security_w).threshold = 0.9 ∧
    (validate_security_check ctx_security_w).blocking = true :=
  ⟨(validate_security_check_spec ctx_security_w).2.1,
   (validate_security_check_spec ctx_security_w).2.2 (by decide)⟩

/-- Claim C6: the input-clarity validator returns score 0 and blocking for an
empty query; for a non-empty query the score is the clamp into [0,1] of
+0.3 for word count at least 5, +0.2 more for at least 10, +0.1 for at most
100, +0.2 for a question-marker token, +0.2 for a technical-term token, and
blocking = (not passed) and score < 0.6; a 12-word query with one question
marker and one technical term scores 1.0. -/
theorem validate_input_clarity_spec (ctx : GateContext) :
    (ctx.data.query.getD "" = "" →
      (validate_input_clarity ctx).score = 0.0 ∧
      (validate_input_clarity ctx).blocking = true) ∧
    (ctx.data.query.getD "" ≠ "" →
      (validate_input_clarity ctx).score =
        min 1.0 (max 0.0
          ((if (pySplit (ctx.data.query.getD "")).length ≥ 5 then (0.3 : ℚ) else 0) +
           (if (pySplit (ctx.data.query.getD "")).length ≥ 10 then 0.2 else 0) +
           (if (pySplit (ctx.data.query.getD "")).length ≤ 100 then 0.1 else 0) +
           (if question_markers.any
              (fun m => strContains (pyLower (ctx.data.query.getD "")) m) then 0.2 else 0) +
           (if tech_indicators.any
              (fun t => strContains (pyLower (ctx.data.query.getD "")) t) then 0.2 else 0))) ∧
      (validate_input_clarity ctx).blocking =
        (!(validate_input_clarity ctx).passed &&
          decide ((validate_input_clarity ctx).score < 0.6))) ∧
    (validate_input_clarity ctx_clear_query).score = 1.0 := by
  refine ⟨?_, ?_, ?_⟩
  · intro h
    simp only [validate_input_clarity, h]
    norm_num
  · intro h
    simp only [validate_input_clarity, if_neg h]
    constructor
    · split_ifs <;> norm_num
    · trivial
  · have hlen : (pySplit
        "how can we test the performance of the new database component today").length = 12 := by
      rfl
    have hq : (question_markers.any fun m => strContains (pyLower
        "how can we test the performance of the new database component today") m) = true := by
      rfl
    have ht : (tech_indicators.any fun t => strContains (pyLower
        "how can we test the performance of the new database component today") t) = true := by
      rfl
    have hne : ¬ (("how can we test the performance of the new database component today" :
        String) = "") := by decide
    simp only [validate_input_clarity, ctx_clear_query, Option.getD, hlen, hq, ht, hne,
      QUALITY_GATE_THRESHOLD]
    norm_num [min_def, max_def]

/-- Witness for claim C6 at a context with no query. -/
theorem validate_input_clarity_spec_witness :
    (validate_input_clarity ctx_empty_query).score = 0.0 ∧
    (validate_input_clarity ctx_empty_query).blocking = true :=
  (validate_input_clarity_spec ctx_empty_query).1 rfl

/-- Claim C7: the confidence-action resolver is total with exactly three
outcomes: proceed when confidence is at least 0.8, clarify on [0.6, 0.8),
block below 0.6; in particular 0.8 to proceed, 0.6 to clarify, 0.59 to
block. -/
theorem get_confidence_action_spec (c : ℚ) :
    (get_confidence_action c = "proceed" ∨ get_confidence_action c = "clarify" ∨
      get_confidence_action c = "block") ∧
    (c ≥ 0.8 → get_confidence_action c = "proceed") ∧
    (0.6 ≤ c ∧ c < 0.8 → get_confidence_action c = "clarify") ∧
    (c < 0.6 → get_confidence_action c = "block") ∧
    get_confidence_action 0.8 = "proceed" ∧
    get_confidence_action 0.6 = "clarify" ∧
    get_confidence_action 0.59 = "block" := by
  refine ⟨?_, ?_, ?_, ?_, ?_, ?_, ?_⟩
  · unfold get_confidence_action
    split_ifs <;> simp
  · intro h
    unfold get_confidence_action
    rw [if_pos h]
  · rintro ⟨h1, h2⟩
    unfold get_confidence_action
    rw [if_neg (by exact not_le.mpr h2), if_pos h1]
  · intro h
    unfold get_confidence_action
    rw [if_neg (by exact not_le.mpr (by linarith)), if_neg (by exact not_le.mpr h)]
  · unfold get_confidence_action
    norm_num
  · unfold get_confidence_action
    norm_num
  · unfold get_confidence_action
    norm_num

/-- Witness for claim C7 at confidence 0.8. -/
theorem get_confidence_action_spec_witness : get_confidence_action 0.8 = "proceed" :=
  (get_confidence_action_spec 0.8).2.1 (by norm_num)

/-- Claim C8: for every gate name (registered or not) and every context, a
blocking verdict from validate_gate is a failing verdict. -/
theorem validate_gate_blocking_implies_not_passed (gate_name : String) (context : RawContext)
    (h : (validate_gate gate_name context).blocking = true) :
    (validate_gate gate_name context).passed = false := by
  unfold validate_gate at h ⊢
  revert h
  cases hl : List.lookup gate_name GATE_VALIDATORS with
  | none => intro h; simp at h
  | some v =>
    intro h
    exact registry_blocking (gate_name, v) (mem_of_lookup_eq_some hl)
      { session_id := context.session_id.getD "unknown",
        agent_type := context.agent_type.getD "unknown",
        phase := context.phase.getD "unknown",
        data := context.data.getD {}, history := context.history } h

/-- Witness for claim C8: no_regressions with no data blocks, hence fails. -/
theorem validate_gate_blocking_implies_not_passed_witness :
    (validate_gate "no_regressions" {}).passed = false :=
  validate_gate_blocking_implies_not_passed "no_regressions" {} (by decide)

/-- Claim C9: for every gate name and context, a passing verdict from
validate_gate carries an empty suggestions list. -/
theorem validate_gate_passed_implies_no_suggestions (gate_name : String) (context : RawContext)
    (h : (validate_gate gate_name context).passed = true) :
    (validate_gate gate_name context).suggestions = [] := by
  unfold validate_gate at h ⊢
  revert h
  cases hl : List.lookup gate_name GATE_VALIDATORS with
  | none => intro _; rfl
  | some v =>
    intro h
    exact registry_suggestions (gate_name, v) (mem_of_lookup_eq_some hl)
      { session_id := context.session_id.getD "unknown",
        agent_type := context.agent_type.getD "unknown",
        phase := context.phase.getD "unknown",
        data := context.data.getD {}, history := context.history } h

/-- Witness for claim C9 at the auto-passing unregistered gate. -/
theorem validate_gate_passed_implies_no_suggestions_witness :
    (validate_gate "mystery_gate" {}).suggestions = [] :=
  validate_gate_passed_implies_no_suggestions "mystery_gate" {} (by decide)

/-- Claim C10: for every gate name (registered or not) and every context, the
verdict returned by validate_gate names the requested gate; each registered
validator hardcoded gate name matches its registry key. -/
theorem validate_gate_returns_requested_name (gate_name : String) (context : RawContext) :
    (validate_gate gate_name context).gate_name = gate_name := by
  unfold validate_gate
  cases hl : List.lookup gate_name GATE_VALIDATORS with
  | none => rfl
  | some v =>
    exact registry_keys (gate_name, v) (mem_of_lookup_eq_some hl)
      { session_id := context.session_id.getD "unknown",
        agent_type := context.agent_type.getD "unknown",
        phase := context.phase.getD "unknown",
        data := context.data.getD {}, history := context.history }
